import Mathlib

/-!
# Verification of the VoiceBook client service layer

Shallow embedding, in Lean 4, of the parts of the repository's service layer
(`src/services/firebaseService.ts` and the service file `src/unnamed/part_000`)
that the specification's claims are about:

* the daily-sharded notification scheme (`getDailyCollectionName`,
  `_createNotification`, `listenToNotifications`, `markNotificationsAsRead`);
* friend-request handling (`addFriend`, `acceptFriendRequest`);
* post reactions and polls (`reactToPost`, `voteOnPoll`);
* group membership operations (`createGroup`, `joinGroup`, `leaveGroup`,
  `removeGroupMember`, `approveJoinRequest`);
* the Cloudinary upload helper (`uploadMediaToCloudinary`);
* an inventory of which backend access primitive each service function uses.

Modelling conventions:

* Instants are `Nat` milliseconds since the Unix epoch, UTC.  JavaScript
  `Date.prototype.toISOString` is exact to the millisecond and
  `new Date(isoString)` parses it back exactly, so a stored ISO `createdAt`
  string is modelled by the instant itself.
* Firestore documents are records; a collection is a lookup function
  `String → Option doc`; subcollection writes are accumulated in lists.
* Firestore map fields (such as a post's `reactions`) are unordered in the
  store, so they are modelled as functions `String → Option String`.
* `runTransaction` aborts with no writes applied when the callback throws, so a
  transaction body is a function into `Except String σ`: `Except.error`
  means the transaction threw and the backend state is unchanged.
-/

/-! ## UTC calendar arithmetic

JavaScript `Date` methods `getUTCFullYear`, `getUTCMonth`, `getUTCDate` expose
the proleptic Gregorian civil date of the UTC day containing the instant.
`civilFromDays` is the standard days-to-civil conversion on nonnegative day
numbers (day 0 = 1970-01-01). -/

def msPerDay : Nat := 86400000

def civilFromDays (z0 : Nat) : Nat × Nat × Nat :=
  let z := z0 + 719468
  let era := z / 146097
  let doe := z % 146097
  let yoe := (doe - doe / 1460 + doe / 36524 - doe / 146096) / 365
  let y := yoe + era * 400
  let doy := doe - (365 * yoe + yoe / 4 - yoe / 100)
  let mp := (5 * doy + 2) / 153
  let d := doy - (153 * mp + 2) / 5 + 1
  (if mp < 10 then y else y + 1, if mp < 10 then mp + 3 else mp - 9, d)

def getUTCFullYear (t : Nat) : Nat := (civilFromDays (t / msPerDay)).1

def getUTCMonth0 (t : Nat) : Nat := (civilFromDays (t / msPerDay)).2.1 - 1

def getUTCDate (t : Nat) : Nat := (civilFromDays (t / msPerDay)).2.2

/-- Model of `String.padStart(2, '0')` for the strings produced by
`Number.prototype.toString` on month and day numbers. -/
def padStart2 (s : String) : String :=
  if s.length < 2 then "0" ++ s else s

/-- Model of `getDailyCollectionName` (part_000 lines 67-73): name of the daily
notification shard for an instant,
`notifications_${year}_${month}_${day}` with 2-padded month and day.
A `string` argument in the source is an ISO timestamp and is parsed back to
the instant it denotes, so both overloads are the one function on instants. -/
def getDailyCollectionName (t : Nat) : String :=
  let year := getUTCFullYear t
  let month := padStart2 (Nat.repr (getUTCMonth0 t + 1))
  let day := padStart2 (Nat.repr (getUTCDate t))
  "notifications_" ++ Nat.repr year ++ "_" ++ month ++ "_" ++ day

example : getDailyCollectionName 0 = "notifications_1970_01_01" := by decide
example : getDailyCollectionName 86399999 = "notifications_1970_01_01" := by decide
example : getDailyCollectionName 86400000 = "notifications_1970_01_02" := by decide

/-! ## Users and notification settings -/

/-- Per-user notification switches (`notificationSettings`).  Each field is
optional in the store; the source tests `settings.likes !== false` etc., so a
missing switch counts as enabled. -/
structure NotificationSettings where
  likes : Option Bool := none
  comments : Option Bool := none
  friendRequests : Option Bool := none
  campaignUpdates : Option Bool := none
  groupPosts : Option Bool := none
deriving DecidableEq, Repr

/-- The user-document fields this development needs. -/
structure UserDoc where
  id : String
  name : String := ""
  avatarUrl : String := ""
  username : String := ""
  friendIds : List String := []
  notificationSettingsField : Option NotificationSettings := none
deriving DecidableEq, Repr

/-- Denormalised author info (`Author`) copied into notifications. -/
structure AuthorInfo where
  id : String
  name : String
  avatarUrl : String
  username : String
deriving DecidableEq, Repr

def UserDoc.authorInfo (u : UserDoc) : AuthorInfo :=
  { id := u.id, name := u.name, avatarUrl := u.avatarUrl, username := u.username }

/-! ## Sharded notifications (`part_000` lines 75-135, 339-409) -/

/-- The notification types enumerated by `_createNotification`'s `isEnabled`
lookup table (the table is exhaustive for these; the source's `?? true`
fallback is unreachable for them). -/
inductive NotifType where
  | like | comment | mention | friend_request | friend_request_approved
  | campaign_approved | campaign_rejected | admin_announcement | admin_warning
  | group_post | group_join_request | group_request_approved
deriving DecidableEq, Repr

/-- Model of `isEnabled` from `_createNotification` (part_000 lines 85-99): whether the
recipient's settings allow a notification of the given type. -/
def isEnabled (settings : NotificationSettings) : NotifType → Bool
  | .like => settings.likes != some false
  | .comment => settings.comments != some false
  | .mention => true
  | .friend_request => settings.friendRequests != some false
  | .friend_request_approved => true
  | .campaign_approved => settings.campaignUpdates != some false
  | .campaign_rejected => settings.campaignUpdates != some false
  | .admin_announcement => true
  | .admin_warning => true
  | .group_post => settings.groupPosts != some false
  | .group_join_request => true
  | .group_request_approved => true

/-- Optional payload (`options: Partial<Notification>`) copied verbatim into
the notification document. -/
structure NotifOptions where
  groupId : Option String := none
  groupName : Option String := none
  campaignName : Option String := none
  rejectionReason : Option String := none
  message : Option String := none
deriving DecidableEq, Repr

/-- The notification document `_createNotification` writes (part_000 lines
116-129).  `createdAt` is stored as `new Date().toISOString()`; ISO strings
round-trip exactly, so it is modelled as the instant. -/
structure NotifDoc where
  recipientId : String
  ntype : NotifType
  user : AuthorInfo
  read : Bool
  createdAt : Nat
  options : NotifOptions
deriving DecidableEq, Repr

/-- Model of `_createNotification` (part_000 lines 75-135).  Result `some (c, d)` means
document `d` is written (by `addDoc`) into daily collection `c`; `none` means
nothing is written (self-notification, missing recipient, or a disabled
switch; a thrown backend error is caught and also writes nothing).

The source reads the wall clock twice: `getDailyCollectionName(new Date())` at
line 105 chooses the collection, and `new Date().toISOString()` at line 121
stamps `createdAt`.  These two reads are the explicit parameters `t1` and
`t2` (the clock is monotone, `t1 ≤ t2`, but the model does not need that). -/
def _createNotification (users : String → Option UserDoc) (recipientId : String)
    (ntype : NotifType) (actor : UserDoc) (options : NotifOptions)
    (t1 t2 : Nat) : Option (String × NotifDoc) :=
  if recipientId = actor.id then
    none
  else
    match users recipientId with
    | none => none
    | some recipient =>
      let settings := recipient.notificationSettingsField.getD {}
      if isEnabled settings ntype then
        some (getDailyCollectionName t1,
          { recipientId := recipientId
            ntype := ntype
            user := actor.authorInfo
            read := false
            createdAt := t2
            options := options })
      else
        none

/-- A notification as read back from a shard by a listener snapshot or passed
to `markNotificationsAsRead`: document id plus the stored fields this
development needs. -/
structure StoredNotification where
  id : String
  recipientId : String
  createdAt : Nat
deriving DecidableEq, Repr

/-- The 30 daily shard collections `listenToNotifications` subscribes to
(part_000 lines 349-355).  Each loop iteration `i = 0, …, 29` reads the clock
afresh — `const date = new Date()` at line 350 — so the loop performs 30
separate clock reads, modelled by the function `reads : Nat → Nat` giving the
instant read at iteration `i`.  The iteration then shifts the local
day-of-month, `date.setDate(date.getDate() - i)` (line 351): day-of-month
arithmetic normalises over month and year boundaries, so for a fixed UTC
offset this moves the instant by exactly `i · 86400000` ms (a DST transition
inside the window would change the shift by the offset delta; civil timezone
rules are outside this millisecond-clock model).  The `i`-th subscription is
therefore on the shard of instant `reads i - i·msPerDay`. -/
def shardCollections (reads : Nat → Nat) : List String :=
  (List.range 30).map (fun i => getDailyCollectionName (reads i - i * msPerDay))

/-- The Firestore query `where('recipientId', '==', userId)` each shard
subscription uses (part_000 line 355). -/
def notificationsQuery (docs : List StoredNotification) (userId : String) :
    List StoredNotification :=
  docs.filter (fun n => n.recipientId == userId)

/-- Model of `processAndCallback` (part_000 lines 343-347): flatten the per-day
snapshot results, sort by `createdAt` descending (JavaScript `sort` with
comparator `dateB - dateA`; stable, as is `mergeSort`), and deliver the first
50. -/
def processAndCallback (daily : List (List StoredNotification)) :
    List StoredNotification :=
  ((daily.flatten).mergeSort (fun a b => b.createdAt ≤ a.createdAt)).take 50

/-- Steady-state delivery of `listenToNotifications userId` once every shard
snapshot has arrived: `shards` maps a collection name to its documents and
`reads` gives the loop's per-iteration clock reads. -/
def listenToNotifications (shards : String → List StoredNotification)
    (reads : Nat → Nat) (userId : String) : List StoredNotification :=
  processAndCallback
    ((shardCollections reads).map (fun c => notificationsQuery (shards c) userId))

/-- Model of `markNotificationsAsRead` (part_000 lines 387-409): each notification `n`
is marked read by a batch update on document `n.id` of collection
`getDailyCollectionName(n.createdAt)`.  The source groups the ids by
collection name before emitting the updates; the grouping only permutes the
batch, which commits atomically, so the model lists one update target per
notification directly. -/
def markNotificationsAsRead (ns : List StoredNotification) :
    List (String × String) :=
  ns.map (fun n => (getDailyCollectionName n.createdAt, n.id))

/-! ## Friend requests (`firebaseService.ts` lines 320-393) -/

/-- A `friendRequests/{fromId_toId}` document (the fields `acceptFriendRequest`
reads; `from`/`to` author copies are irrelevant to the claims and omitted). -/
structure FriendRequestDoc where
  fromId : String
  toId : String
  status : String
deriving DecidableEq, Repr

/-- A notification written by `acceptFriendRequest` into
`users/{requestingUserId}/notifications` (lines 373-383). -/
structure FriendNotif where
  ownerId : String
  ntype : String
  user : AuthorInfo
  read : Bool
deriving DecidableEq, Repr

/-- Backend state for the friend-request operations: the `users` and
`friendRequests` collections, plus the per-user `notifications`
subcollections (as the list of documents ever added, newest last). -/
structure FriendDB where
  users : String → Option UserDoc
  requests : String → Option FriendRequestDoc
  notifications : List FriendNotif

/-- Firestore `arrayUnion x`: appends `x` unless an equal element is already
present. -/
def arrayUnion {α : Type} [DecidableEq α] (l : List α) (x : α) : List α :=
  if x ∈ l then l else l ++ [x]

/-- Model of `acceptFriendRequest` (firebaseService.ts lines 349-388), as the
`runTransaction` body on the backend state.  `Except.error` is a throw inside
the transaction: Firestore then aborts it and applies none of its writes, so
the backend state is the unchanged input state.  On success the new state
carries the transaction's three writes:
1. `arrayUnion` of each user's id into the other's `friendIds`,
2. a `friend_request_approved` notification for the requesting user,
3. deletion of the `friendRequests/{requestingUserId_currentUserId}` document.
`transaction.update` on the requesting user's document (line 370) fails when
that document does not exist, which also aborts the transaction. -/
def acceptFriendRequest (db : FriendDB) (currentUserId requestingUserId : String) :
    Except String FriendDB :=
  let requestKey := requestingUserId ++ "_" ++ currentUserId
  match db.requests requestKey with
  | none => .error "Friend request not found or already handled."
  | some req =>
    if req.status ≠ "pending" then
      .error "Friend request not found or already handled."
    else
      match db.users currentUserId with
      | none => .error "Current user profile not found."
      | some currentUserData =>
        match db.users requestingUserId with
        | none => .error "No document to update"
        | some requestingUserData =>
          .ok
            { users := fun k =>
                if k = currentUserId then
                  some { currentUserData with
                    friendIds := arrayUnion currentUserData.friendIds requestingUserId }
                else if k = requestingUserId then
                  some { requestingUserData with
                    friendIds := arrayUnion requestingUserData.friendIds currentUserId }
                else db.users k
              requests := fun k => if k = requestKey then none else db.requests k
              notifications := db.notifications ++
                [{ ownerId := requestingUserId
                   ntype := "friend_request_approved"
                   user := currentUserData.authorInfo
                   read := false }] }

/-! ## Posts: reactions and polls (`firebaseService.ts` lines 644-846) -/

/-- One option of a poll. -/
structure PollOption where
  text : String
  votes : Nat
  votedBy : List String
deriving DecidableEq, Repr

/-- A post's poll. -/
structure Poll where
  question : String
  options : List PollOption
deriving DecidableEq, Repr

/-- A comment's fields used by the reaction claims.  A comment's `reactions`
is a Firestore map field, modelled as a lookup function. -/
structure CommentDoc where
  id : String
  reactions : String → Option String

/-- The post-document fields used by the reaction and poll claims.
`reactions` maps a user id to that user's reaction string. -/
structure PostDoc where
  authorId : String
  reactions : String → Option String
  comments : List CommentDoc
  commentCount : Nat
  poll : Option Poll

/-- The reaction toggle at the heart of `reactToPost` (lines 652-660): copy
the `reactions` map, then delete the caller's entry when it already equals
`newReaction` and overwrite it with `newReaction` otherwise. -/
def toggleReaction (reactions : String → Option String) (userId newReaction : String) :
    String → Option String :=
  fun k =>
    if k = userId then
      if reactions userId = some newReaction then none else some newReaction
    else reactions k

/-- Model of `reactToPost` (lines 644-669) on the `posts` collection.  The transaction
throws (and is rolled back) when the post does not exist; the catch block
then returns `false`.  On success `transaction.update(postRef, { reactions })`
replaces only the post's `reactions` field. -/
def reactToPost (posts : String → Option PostDoc) (postId userId newReaction : String) :
    Bool × (String → Option PostDoc) :=
  match posts postId with
  | none => (false, posts)
  | some postData =>
    (true, fun k =>
      if k = postId then
        some { postData with reactions := toggleReaction postData.reactions userId newReaction }
      else posts k)

/-- Model of `voteOnPoll` (lines 800-846).  Returns the post the caller receives
(`null` modelled as `none`) together with the resulting `posts` collection.
The transaction throws — leaving the store unchanged and returning `null` —
when the post is missing, has no poll, or (for a user who has not voted yet)
the option index is out of range.  A user already in some option's `votedBy`
gets the current post back with no write.  Otherwise the chosen option's
`votes` is incremented and the user is appended to its `votedBy`. -/
def voteOnPoll (posts : String → Option PostDoc) (userId postId : String)
    (optionIndex : Int) : Option PostDoc × (String → Option PostDoc) :=
  match posts postId with
  | none => (none, posts)
  | some postData =>
    match postData.poll with
    | none => (none, posts)
    | some poll =>
      let hasVoted := poll.options.any (fun opt => userId ∈ opt.votedBy)
      if hasVoted then
        (some postData, posts)
      else if optionIndex < 0 ∨ (poll.options.length : Int) ≤ optionIndex then
        (none, posts)
      else
        let updatedOptions := poll.options.enum.map (fun (index, option) =>
          if (index : Int) = optionIndex then
            { option with votes := option.votes + 1, votedBy := option.votedBy ++ [userId] }
          else option)
        let updatedPoll := { poll with options := updatedOptions }
        let updatedPost := { postData with poll := some updatedPoll }
        (some updatedPost, fun k => if k = postId then some updatedPost else posts k)

/-! ## Groups (`firebaseService.ts` lines 1877-1912, 2075-2130) -/

/-- A pending join request held in a group document's `joinRequests` array
(the `answers` payload is irrelevant to the claims). -/
structure JoinRequestDoc where
  user : AuthorInfo
deriving DecidableEq, Repr

/-- The group-document fields used by the membership operations. -/
structure GroupDoc where
  members : List AuthorInfo
  admins : List AuthorInfo
  moderators : List AuthorInfo
  memberCount : Int
  joinRequests : List JoinRequestDoc
deriving DecidableEq, Repr

/-- Model of `createGroup` (lines 1877-1882): the membership fields of the new group
document — `members: [creator]`, `memberCount: 1`, `admins: [creator]`,
`moderators: []` (no `joinRequests` field yet, read back as `[]`). -/
def createGroup (creator : AuthorInfo) : GroupDoc :=
  { members := [creator], admins := [creator], moderators := [],
    memberCount := 1, joinRequests := [] }

/-- Model of `joinGroup` (lines 1883-1890): fetch the user's profile (returning `false`
with no write when it is missing), then a single `updateDoc` with
`arrayUnion(memberObject)` on `members` and `increment(1)` on `memberCount`.
There is no membership check: for an already-present member object the
`arrayUnion` is a no-op while the counter still increments. -/
def joinGroup (users : String → Option UserDoc) (g : GroupDoc) (userId : String) :
    Bool × GroupDoc :=
  match users userId with
  | none => (false, g)
  | some user =>
    let memberObject := user.authorInfo
    (true, { g with members := arrayUnion g.members memberObject,
                    memberCount := g.memberCount + 1 })

/-- Model of `leaveGroup` (lines 1891-1912): inside a transaction, drop every entry
with the user's id from `members`, `admins` and `moderators`, and
`increment(-1)` the counter — unconditionally, member or not. -/
def leaveGroup (g : GroupDoc) (userId : String) : GroupDoc :=
  { g with
    members := g.members.filter (fun m => m.id ≠ userId)
    admins := g.admins.filter (fun a => a.id ≠ userId)
    moderators := g.moderators.filter (fun m => m.id ≠ userId)
    memberCount := g.memberCount - 1 }

/-- Model of `removeGroupMember` (lines 2075-2100): inside a transaction, decrement the
counter only when some entry of `members` has the user's id, and drop every
entry with that id from the three role arrays. -/
def removeGroupMember (g : GroupDoc) (userToRemove : AuthorInfo) : GroupDoc :=
  let isAlreadyMember := g.members.any (fun m => m.id = userToRemove.id)
  let memberCountChange : Int := if isAlreadyMember then -1 else 0
  { g with
    members := g.members.filter (fun m => m.id ≠ userToRemove.id)
    admins := g.admins.filter (fun a => a.id ≠ userToRemove.id)
    moderators := g.moderators.filter (fun m => m.id ≠ userToRemove.id)
    memberCount := g.memberCount + memberCountChange }

/-- Model of `approveJoinRequest` (lines 2101-2130): inside a transaction, find the
first pending request by the user (returning with no write when there is
none), drop the user's requests, `arrayUnion` the requester's member object
into `members`, and `increment(1)` the counter. -/
def approveJoinRequest (g : GroupDoc) (userId : String) : GroupDoc :=
  match g.joinRequests.find? (fun r => r.user.id = userId) with
  | none => g
  | some request =>
    let userToApprove := request.user
    { g with
      joinRequests := g.joinRequests.filter (fun r => r.user.id ≠ userId)
      members := arrayUnion g.members userToApprove
      memberCount := g.memberCount + 1 }

/-- The membership-counter invariant of claim C3. -/
def memberCountInvariant (g : GroupDoc) : Prop :=
  g.memberCount = (g.members.length : Int)

instance (g : GroupDoc) : Decidable (memberCountInvariant g) := by
  unfold memberCountInvariant; infer_instance

/-! ## Which backend primitive each operation uses

The concurrency claims C4 and C6 are about *which* Firestore access primitive
each service function invokes (`runTransaction` vs `setDoc`/`updateDoc`/…,
`onSnapshot` vs `getDoc`/`getDocs`).  That is a syntactic property of the
source, embedded here as inventories transcribed call-by-call from
`firebaseService.ts` and `part_000`. -/

/-- The write primitive an operation uses for its read-modify-write of shared
state. -/
inductive WriteMechanism where
  | transaction   -- `runTransaction`
  | plainSetDoc   -- one-shot `setDoc`
  | plainUpdateDoc -- one-shot `updateDoc` (possibly with field transforms)
deriving DecidableEq, Repr

/-- The operations named by the spec's "ensure consistency under concurrent
writes" sentence. -/
inductive ConsistencyOp where
  | reactToPostOp | reactToCommentOp | addFriendOp | acceptFriendRequestOp
  | joinGroupOp | leaveGroupOp | removeGroupMemberOp | approveJoinRequestOp
deriving DecidableEq, Repr

/-- The write primitive each consistency operation issues, read off the
source: `reactToPost` (line 647), `reactToComment` (line 674) and
`acceptFriendRequest` (line 356) call `runTransaction`, as do `leaveGroup`
(line 1894), `removeGroupMember` (line 2078) and `approveJoinRequest`
(line 2104); but `addFriend` writes the request document with a plain
`setDoc` (line 335) and `joinGroup` updates the group with a plain
`updateDoc` (line 1888). -/
def writeMechanism : ConsistencyOp → WriteMechanism
  | .reactToPostOp => .transaction
  | .reactToCommentOp => .transaction
  | .addFriendOp => .plainSetDoc
  | .acceptFriendRequestOp => .transaction
  | .joinGroupOp => .plainUpdateDoc
  | .leaveGroupOp => .transaction
  | .removeGroupMemberOp => .transaction
  | .approveJoinRequestOp => .transaction

/-- How a service-layer function accesses the document store. -/
inductive AccessKind where
  | realtimeListener   -- read via `onSnapshot`
  | oneShotRead        -- read via `getDoc` / `getDocs`
  | transactionalWrite -- write inside `runTransaction`
  | plainWrite         -- write via `setDoc` / `updateDoc` / `addDoc` / `deleteDoc`
deriving DecidableEq, Repr

def AccessKind.isRead : AccessKind → Bool
  | .realtimeListener => true
  | .oneShotRead => true
  | _ => false

def AccessKind.isWrite : AccessKind → Bool
  | .transactionalWrite => true
  | .plainWrite => true
  | _ => false

/-- A sample of the service layer's document-store accesses, one entry per
(function, primitive) pair, transcribed from the source:
`listenToFriendRequests` (line 460) and `listenToNotifications` (part_000
line 357) subscribe with `onSnapshot`; `checkFriendshipStatus` (line 431),
`isUsernameTaken` (part_000 line 413), `getUserProfileById` (part_000 line
419) and `getPostsForGroup` (line 1915) issue one-shot `getDoc`/`getDocs`
reads; `acceptFriendRequest` (line 356) and `reactToPost` (line 647) write
inside `runTransaction`; `addFriend` (line 335, `setDoc`),
`updateGroupSettings` (line 1919, `updateDoc`), `pinPost` (line 1923,
`updateDoc`) and `declineFriendRequest` (line 392, `deleteDoc`) write
without a transaction. -/
def accessInventory : List (String × AccessKind) :=
  [("listenToFriendRequests", .realtimeListener),
   ("listenToNotifications", .realtimeListener),
   ("checkFriendshipStatus", .oneShotRead),
   ("isUsernameTaken", .oneShotRead),
   ("getUserProfileById", .oneShotRead),
   ("getPostsForGroup", .oneShotRead),
   ("acceptFriendRequest", .transactionalWrite),
   ("reactToPost", .transactionalWrite),
   ("addFriend", .plainWrite),
   ("updateGroupSettings", .plainWrite),
   ("pinPost", .plainWrite),
   ("declineFriendRequest", .plainWrite)]

/-! ## Cloudinary upload helper (`firebaseService.ts` lines 68-91) -/

/-- The HTTP response of the Cloudinary upload endpoint, as the fields the
helper reads: `ok`, and the JSON body's `secure_url` and `resource_type`. -/
structure CloudinaryResponse where
  ok : Bool
  secure_url : String
  resource_type : String
deriving DecidableEq, Repr

/-- The endpoint resource type chosen from the file's MIME type (lines
73-76). -/
def cloudinaryResourceType (fileType : String) : String :=
  if fileType.startsWith "video" then "video"
  else if fileType.startsWith "image" then "image"
  else if fileType.startsWith "audio" then "video"
  else "auto"

/-- Model of `uploadMediaToCloudinary` (lines 68-91), given the response of the `fetch`
to the upload endpoint: a non-ok response throws
`"Failed to upload media to Cloudinary"` and yields no URL; an ok response
yields `(data.secure_url, data.resource_type)`. -/
def uploadMediaToCloudinary (response : CloudinaryResponse) :
    Except String (String × String) :=
  if !response.ok then
    .error "Failed to upload media to Cloudinary"
  else
    .ok (response.secure_url, response.resource_type)

/-! ## Additional definitions used by the claim statements -/

/-- The `notificationSettings` switch that claim C9 associates with a
notification type: `likes` gates likes, `comments` gates comments,
`friendRequests` gates friend requests, `campaignUpdates` gates both campaign
outcomes, `groupPosts` gates group posts; the remaining types have no
switch. -/
def switchForType (s : NotificationSettings) : NotifType → Option Bool
  | .like => s.likes
  | .comment => s.comments
  | .friend_request => s.friendRequests
  | .campaign_approved => s.campaignUpdates
  | .campaign_rejected => s.campaignUpdates
  | .group_post => s.groupPosts
  | _ => none

/-- Settings of the recipient as `_createNotification` reads them:
`recipient.notificationSettings || {}`. -/
def UserDoc.effectiveSettings (u : UserDoc) : NotificationSettings :=
  u.notificationSettingsField.getD {}

/-! ## Claim theorems -/

/-- C7: for every successful (`ok`) response of the media-hosting API,
`uploadMediaToCloudinary` returns the durable URL — the response's
`secure_url` — together with the resource type; for every non-ok response it
throws `"Failed to upload media to Cloudinary"` and returns no URL. -/
theorem uploadMediaToCloudinary_spec (response : CloudinaryResponse) :
    (response.ok = true →
      uploadMediaToCloudinary response =
        .ok (response.secure_url, response.resource_type)) ∧
    (response.ok = false →
      uploadMediaToCloudinary response =
        .error "Failed to upload media to Cloudinary") := by
  unfold uploadMediaToCloudinary
  cases h : response.ok <;> simp

/-- Witness for C7: a concrete ok response yields its `secure_url` and
resource type. -/
theorem uploadMediaToCloudinary_spec_witness :
    uploadMediaToCloudinary ⟨true, "https://res.cloudinary.com/demo/x.jpg", "image"⟩ =
      .ok ("https://res.cloudinary.com/demo/x.jpg", "image") :=
  (uploadMediaToCloudinary_spec
    ⟨true, "https://res.cloudinary.com/demo/x.jpg", "image"⟩).1 rfl

/-- C4 counterexample: it is false that every operation of the
"ensure consistency under concurrent writes" logic performs its
read-modify-write through `runTransaction` — `addFriend` uses a plain
`setDoc` (firebaseService.ts line 335) and `joinGroup` a plain `updateDoc`
(line 1888). -/
theorem writeMechanism_not_all_transactional :
    ¬ (∀ op : ConsistencyOp, writeMechanism op = .transaction) := by
  intro h
  exact absurd (h .addFriendOp) (by decide)

/-- C4 (amended): every operation of the "ensure consistency under concurrent
writes" logic except `addFriend` and `joinGroup` — that is, `reactToPost`,
`reactToComment`, `acceptFriendRequest`, `leaveGroup`, `removeGroupMember`
and `approveJoinRequest` — performs its read-modify-write through the
backend's optimistic-transaction primitive `runTransaction`; `addFriend`
writes the request document with a plain `setDoc` and `joinGroup` updates the
group document with a plain `updateDoc` (whose `arrayUnion`/`increment` field
transforms are atomic but are not a read-modify-write transaction). -/
theorem writeMechanism_amended (op : ConsistencyOp)
    (h1 : op ≠ ConsistencyOp.addFriendOp) (h2 : op ≠ ConsistencyOp.joinGroupOp) :
    writeMechanism op = .transaction := by
  cases op <;> first | rfl | exact absurd rfl h1 | exact absurd rfl h2

/-- Witness for the amended C4: `reactToPost` writes through a transaction. -/
theorem writeMechanism_amended_witness :
    writeMechanism ConsistencyOp.reactToPostOp = .transaction :=
  writeMechanism_amended ConsistencyOp.reactToPostOp (by decide) (by decide)

/-- C6 counterexample: it is false that every service-layer read of the
document store is a real-time `onSnapshot` subscription and every write is
inside a transaction: the access inventory contains one-shot reads
(`checkFriendshipStatus`, `isUsernameTaken`, `getUserProfileById`,
`getPostsForGroup` use `getDoc`/`getDocs`) and plain writes (`addFriend`,
`updateGroupSettings`, `pinPost`, `declineFriendRequest` use
`setDoc`/`updateDoc`/`deleteDoc`). -/
theorem accessInventory_not_exclusive :
    ¬ (∀ e ∈ accessInventory,
        (e.2.isRead = true → e.2 = AccessKind.realtimeListener) ∧
        (e.2.isWrite = true → e.2 = AccessKind.transactionalWrite)) := by
  intro h
  have := (h ("isUsernameTaken", .oneShotRead) (by decide)).1 rfl
  exact absurd this (by decide)

/-- C6 (amended): the document store is accessed through a mix of
primitives — the service layer issues real-time `onSnapshot` subscriptions
*and* one-shot `getDoc`/`getDocs` reads, and performs transactional *and*
plain non-transactional writes. -/
theorem accessInventory_mixed :
    (∃ e ∈ accessInventory, e.2 = AccessKind.realtimeListener) ∧
    (∃ e ∈ accessInventory, e.2 = AccessKind.oneShotRead) ∧
    (∃ e ∈ accessInventory, e.2 = AccessKind.transactionalWrite) ∧
    (∃ e ∈ accessInventory, e.2 = AccessKind.plainWrite) := by
  refine ⟨⟨("listenToFriendRequests", .realtimeListener), by decide, rfl⟩,
    ⟨("isUsernameTaken", .oneShotRead), by decide, rfl⟩,
    ⟨("acceptFriendRequest", .transactionalWrite), by decide, rfl⟩,
    ⟨("addFriend", .plainWrite), by decide, rfl⟩⟩

/-- C9: `_createNotification` writes no notification when the recipient is
the acting user, and writes no notification when the switch of the
recipient's `notificationSettings` corresponding to the notification's type
(`likes`, `comments`, `friendRequests`, `campaignUpdates` for both campaign
outcomes, `groupPosts`) is `false`. -/
theorem createNotification_suppression (users : String → Option UserDoc)
    (recipientId : String) (ntype : NotifType) (actor : UserDoc)
    (options : NotifOptions) (t1 t2 : Nat) :
    (recipientId = actor.id →
      _createNotification users recipientId ntype actor options t1 t2 = none) ∧
    (∀ u, users recipientId = some u →
      switchForType u.effectiveSettings ntype = some false →
      _createNotification users recipientId ntype actor options t1 t2 = none) := by
  constructor
  · intro h
    unfold _createNotification
    simp [h]
  · intro u hu hswitch
    unfold _createNotification
    by_cases hself : recipientId = actor.id
    · simp [hself]
    · simp only [if_neg hself, hu]
      have : isEnabled u.effectiveSettings ntype = false := by
        cases ntype <;>
          simp_all [switchForType, isEnabled, UserDoc.effectiveSettings]
      simp [UserDoc.effectiveSettings] at this
      simp [this]

/-- Concrete recipient for the C9 witness: user `bob` with the `likes`
notification switch off. -/
def bobLikesOff : UserDoc :=
  { id := "bob", notificationSettingsField := some { likes := some false } }

/-- Witness for C9: a recipient who turned the `likes` switch off receives no
like notification. -/
theorem createNotification_suppression_witness :
    _createNotification (fun _ => some bobLikesOff)
      "bob" NotifType.like { id := "alice" } {} 0 0 = none :=
  (createNotification_suppression (fun _ => some bobLikesOff)
      "bob" NotifType.like { id := "alice" } {} 0 0).2
    bobLikesOff rfl (by decide)

/-- The daily collection name depends only on the UTC day of the instant. -/
theorem getDailyCollectionName_congr {t1 t2 : Nat}
    (h : t1 / msPerDay = t2 / msPerDay) :
    getDailyCollectionName t1 = getDailyCollectionName t2 := by
  unfold getDailyCollectionName getUTCFullYear getUTCMonth0 getUTCDate
  rw [h]

/-- Concrete actor for the C5 counterexample. -/
def crossMidnightActor : UserDoc := { id := "alice" }

/-- The notification document written in the C5 counterexample run. -/
def crossMidnightDoc : NotifDoc :=
  { recipientId := "bob", ntype := NotifType.like,
    user := crossMidnightActor.authorInfo, read := false,
    createdAt := 86400000, options := {} }

/-- C5 counterexample: the collection a notification is written to is *not*
always the one `markNotificationsAsRead` recomputes from its `createdAt`.
`_createNotification` reads the clock twice — once (part_000 line 105) to
pick the daily collection and once (line 121) to stamp `createdAt` — so in a
run whose first read is the last millisecond of 1970-01-01 and whose second
read falls on 1970-01-02, the document lands in `notifications_1970_01_01`
while the recomputation targets `notifications_1970_01_02`: the mark-as-read
update misses the stored document. -/
theorem createNotification_markAsRead_mismatch :
    _createNotification (fun _ => some { id := "bob" }) "bob" NotifType.like
        crossMidnightActor {} 86399999 86400000 =
      some ("notifications_1970_01_01", crossMidnightDoc) ∧
    markNotificationsAsRead [⟨"n1", "bob", crossMidnightDoc.createdAt⟩] =
      [("notifications_1970_01_02", "n1")] ∧
    ("notifications_1970_01_02" : String) ≠ "notifications_1970_01_01" := by
  refine ⟨by decide, by decide, by decide⟩

/-- C5 (amended): provided the two clock reads of `_createNotification` fall
on the same UTC day — in particular whenever it does not execute across a UTC
midnight — every notification it writes goes to the daily collection computed
by `getDailyCollectionName` from the creation time, stores that time as
`createdAt`, and `markNotificationsAsRead` recomputes from the stored
`createdAt` the name of the very collection the notification was written to,
so the mark-as-read update targets the stored document. -/
theorem createNotification_markAsRead_roundtrip
    (users : String → Option UserDoc) (recipientId : String) (ntype : NotifType)
    (actor : UserDoc) (options : NotifOptions) (t1 t2 : Nat)
    (hday : t1 / msPerDay = t2 / msPerDay) :
    ∀ c d i, _createNotification users recipientId ntype actor options t1 t2 =
        some (c, d) →
      c = getDailyCollectionName t1 ∧ d.createdAt = t2 ∧
      markNotificationsAsRead [⟨i, d.recipientId, d.createdAt⟩] = [(c, i)] := by
  intro c d i h
  unfold _createNotification at h
  by_cases hself : recipientId = actor.id
  · simp [hself] at h
  · simp only [if_neg hself] at h
    cases hu : users recipientId with
    | none => rw [hu] at h; simp at h
    | some recipient =>
      rw [hu] at h
      simp only at h
      by_cases hen : isEnabled (recipient.notificationSettingsField.getD {}) ntype
      · rw [if_pos hen] at h
        obtain ⟨hc, hd⟩ := Prod.mk.injEq .. ▸ Option.some.injEq .. ▸ h
        subst hc
        subst hd
        refine ⟨rfl, rfl, ?_⟩
        unfold markNotificationsAsRead
        simp only [List.map]
        rw [getDailyCollectionName_congr hday.symm]
      · rw [if_neg hen] at h
        exact absurd h (by simp)

/-- The notification document written in the C5 witness run. -/
def sameDayDoc : NotifDoc :=
  { recipientId := "bob", ntype := NotifType.like,
    user := crossMidnightActor.authorInfo, read := false,
    createdAt := 1000, options := {} }

/-- Witness for the amended C5: a notification whose two clock reads are one
second apart inside 1970-01-01 is written to `notifications_1970_01_01`,
which is exactly what mark-as-read recomputes. -/
theorem createNotification_markAsRead_roundtrip_witness :
    "notifications_1970_01_01" = getDailyCollectionName 0 ∧
    sameDayDoc.createdAt = 1000 ∧
    markNotificationsAsRead [⟨"n1", sameDayDoc.recipientId, sameDayDoc.createdAt⟩] =
      [("notifications_1970_01_01", "n1")] :=
  createNotification_markAsRead_roundtrip (fun _ => some { id := "bob" })
    "bob" NotifType.like crossMidnightActor {} 0 1000 (by decide)
    "notifications_1970_01_01" sameDayDoc "n1" (by decide)

/-- Concrete post for the C2 counterexample: user `u1` already reacted
`"love"`. -/
def lovePost : PostDoc :=
  { authorId := "carol",
    reactions := fun k => if k = "u1" then some "love" else none,
    comments := [], commentCount := 0, poll := none }

/-- C2 counterexample: applying `reactToPost` twice with the same user and
reaction does *not* always restore the original reactions map.  Starting from
a post where `u1`'s entry is `"love"`, two `reactToPost` calls with reaction
`"like"` first overwrite the entry and then toggle it off, leaving `u1` with
no entry instead of the original `"love"`. -/
theorem reactToPost_double_not_restoring :
    ((reactToPost (reactToPost (fun _ => some lovePost) "p1" "u1" "like").2
        "p1" "u1" "like").2 "p1").map (fun p => p.reactions "u1") = some none ∧
    ((fun _ => (some lovePost : Option PostDoc)) "p1").map
        (fun p => p.reactions "u1") = some (some "love") ∧
    (some none : Option (Option String)) ≠ some (some "love") :=
  ⟨rfl, rfl, by decide⟩

/-- The post produced by `reactToPost`'s transaction: only the `reactions`
field is replaced, by the toggled map. -/
def togglePost (postData : PostDoc) (userId newReaction : String) : PostDoc :=
  { postData with
    reactions := toggleReaction postData.reactions userId newReaction }

/-- C2 (amended): for every post that exists, every user id and every
reaction string, `reactToPost` removes the caller's entry from the post's
`reactions` map when it already equals the new reaction and otherwise sets it
to the new reaction; every other user's entry, all other fields of the post,
and all other posts are unchanged.  Applying `reactToPost` twice with the
same user and reaction restores the original reactions map *when the user's
original entry was absent or already equal to that reaction*; when the user
had a different prior reaction the two applications remove the entry (the
first overwrites it, the second toggles it off). -/
theorem reactToPost_toggle_spec (posts : String → Option PostDoc)
    (postId userId newReaction : String) (postData : PostDoc)
    (hpost : posts postId = some postData) :
    (reactToPost posts postId userId newReaction).1 = true ∧
    (∀ k, k ≠ postId → (reactToPost posts postId userId newReaction).2 k = posts k) ∧
    ((reactToPost posts postId userId newReaction).2 postId =
      some (togglePost postData userId newReaction) ∧
      (togglePost postData userId newReaction).authorId = postData.authorId ∧
      (togglePost postData userId newReaction).comments = postData.comments ∧
      (togglePost postData userId newReaction).commentCount = postData.commentCount ∧
      (togglePost postData userId newReaction).poll = postData.poll ∧
      (postData.reactions userId = some newReaction →
        (togglePost postData userId newReaction).reactions userId = none) ∧
      (postData.reactions userId ≠ some newReaction →
        (togglePost postData userId newReaction).reactions userId = some newReaction) ∧
      (∀ v, v ≠ userId →
        (togglePost postData userId newReaction).reactions v = postData.reactions v)) ∧
    ((postData.reactions userId = none ∨
        postData.reactions userId = some newReaction) →
      ∀ k, ((reactToPost (reactToPost posts postId userId newReaction).2
          postId userId newReaction).2 postId).map (fun p => p.reactions k) =
        some (postData.reactions k)) := by
  refine ⟨?_, ?_, ⟨?_, rfl, rfl, rfl, rfl, ?_, ?_, ?_⟩, ?_⟩
  · simp [reactToPost, hpost]
  · intro k hk
    simp [reactToPost, hpost, if_neg hk]
  · simp [reactToPost, hpost, togglePost]
  · intro h
    simp [togglePost, toggleReaction, h]
  · intro h
    simp [togglePost, toggleReaction, h]
  · intro v hv
    simp [togglePost, toggleReaction, if_neg hv]
  · intro hprior k
    by_cases hk : k = userId
    · subst hk
      rcases hprior with h | h <;>
        simp [reactToPost, hpost, toggleReaction, h]
    · simp [reactToPost, hpost, toggleReaction, if_neg hk]

/-- Witness for the amended C2: on a concrete post the reaction transaction
succeeds. -/
theorem reactToPost_toggle_spec_witness :
    (reactToPost (fun _ => some lovePost) "p1" "u1" "like").1 = true :=
  (reactToPost_toggle_spec (fun _ => some lovePost) "p1" "u1" "like"
    lovePost rfl).1


/-- Length of a Firestore `arrayUnion`: unchanged when the element is already
present, one longer otherwise. -/
theorem arrayUnion_length {α : Type} [DecidableEq α] (l : List α) (x : α) :
    (arrayUnion l x).length = if x ∈ l then l.length else l.length + 1 := by
  unfold arrayUnion
  split <;> simp

/-- Length after filtering out the entries with a given id, in terms of how
many entries carried that id. -/
theorem length_filter_ne_id (l : List AuthorInfo) (uid : String) :
    (l.filter fun m => m.id ≠ uid).length =
      l.length - l.countP fun m => m.id = uid := by
  induction l with
  | nil => rfl
  | cons a l ih =>
    have hle : l.countP (fun m => m.id = uid) ≤ l.length :=
      List.countP_le_length _
    by_cases h : a.id = uid
    · rw [List.filter_cons_of_neg (by simp [h]),
        List.countP_cons_of_pos _ _ (by simp [h]), ih, List.length_cons]
      omega
    · rw [List.filter_cons_of_pos (by simp [h]),
        List.countP_cons_of_neg _ _ (by simp [h]), List.length_cons,
        List.length_cons, ih]
      omega

/-- Concrete creator for the C3 counterexample. -/
def aliceInfo : AuthorInfo :=
  { id := "alice", name := "Alice", avatarUrl := "", username := "alice" }

/-- Concrete user profile matching `aliceInfo`. -/
def aliceUser : UserDoc :=
  { id := "alice", name := "Alice", avatarUrl := "", username := "alice" }

/-- C3 counterexample: `joinGroup` by a user who is already a member does
*not* preserve `memberCount = members.length`.  On the group freshly created
by Alice (where the equality holds), `joinGroup` by Alice leaves `members`
unchanged (`arrayUnion` is a no-op on the identical member object) while
still incrementing `memberCount`, so the claim's "including a joinGroup by a
user who is already a member" is false. -/
theorem joinGroup_breaks_memberCount :
    memberCountInvariant (createGroup aliceInfo) ∧
    ¬ memberCountInvariant
        (joinGroup (fun _ => some aliceUser) (createGroup aliceInfo) "alice").2 :=
  ⟨by decide, by decide⟩

/-- C3 (amended): starting from a group document with
`memberCount = members.length`: `createGroup` establishes the equality
(members `[creator]`, counter 1) and `removeGroupMember` preserves it
whenever at most one `members` entry carries the removed user's id;
`joinGroup` preserves it exactly when the joining user's member object is not
already in `members` (for an existing member the `arrayUnion` is a no-op but
the counter still increments, breaking it); `leaveGroup` preserves it exactly
when exactly one `members` entry carries the leaving user's id (for a
non-member the counter still decrements); `approveJoinRequest` preserves it
when the user has no pending request (no-op), and with a pending request
exactly when the requester's member object is not already in `members`. -/
theorem groupMembership_counter_amended (g : GroupDoc) (uid : String)
    (users : String → Option UserDoc) (creator m : AuthorInfo)
    (hInv : memberCountInvariant g) :
    memberCountInvariant (createGroup creator) ∧
    (∀ u, users uid = some u →
      (memberCountInvariant (joinGroup users g uid).2 ↔
        u.authorInfo ∉ g.members)) ∧
    (memberCountInvariant (leaveGroup g uid) ↔
      g.members.countP (fun x => x.id = uid) = 1) ∧
    (memberCountInvariant (removeGroupMember g m) ↔
      g.members.countP (fun x => x.id = m.id) ≤ 1) ∧
    ((g.joinRequests.find? (fun q => q.user.id = uid) = none →
      memberCountInvariant (approveJoinRequest g uid)) ∧
     (∀ r, g.joinRequests.find? (fun q => q.user.id = uid) = some r →
      (memberCountInvariant (approveJoinRequest g uid) ↔ r.user ∉ g.members))) := by
  unfold memberCountInvariant at hInv
  refine ⟨by simp [createGroup, memberCountInvariant], ?_, ?_, ?_, ?_, ?_⟩
  · intro u hu
    unfold joinGroup
    rw [hu]
    unfold memberCountInvariant
    simp only
    rw [arrayUnion_length]
    by_cases hmem : u.authorInfo ∈ g.members <;> simp [hmem] <;> omega
  · unfold leaveGroup memberCountInvariant
    simp only
    rw [length_filter_ne_id]
    have hle : g.members.countP (fun x => x.id = uid) ≤ g.members.length :=
      List.countP_le_length _
    omega
  · unfold removeGroupMember memberCountInvariant
    simp only
    rw [length_filter_ne_id]
    have hle : g.members.countP (fun x => x.id = m.id) ≤ g.members.length :=
      List.countP_le_length _
    have hpos : 0 < g.members.countP (fun x => x.id = m.id) ↔
        g.members.any (fun x => x.id = m.id) = true := by
      simp [List.countP_pos_iff, List.any_eq_true]
    by_cases hany : g.members.any (fun x => x.id = m.id) = true
    · have hc : 0 < g.members.countP (fun x => x.id = m.id) := hpos.mpr hany
      rw [if_pos hany]
      omega
    · have hc : g.members.countP (fun x => x.id = m.id) = 0 :=
        Nat.eq_zero_of_not_pos (fun hlt => hany (hpos.mp hlt))
      rw [if_neg hany]
      omega
  · intro h
    unfold approveJoinRequest
    rw [h]
    exact hInv
  · intro r hr
    unfold approveJoinRequest
    rw [hr]
    unfold memberCountInvariant
    simp only
    rw [arrayUnion_length]
    by_cases hmem : r.user ∈ g.members <;> simp [hmem] <;> omega

/-- Witness for the amended C3: on Alice's fresh group, removing a user who
was never a member keeps the counter equal to the member-array length. -/
theorem groupMembership_counter_amended_witness :
    memberCountInvariant
      (removeGroupMember (createGroup aliceInfo)
        { id := "bob", name := "Bob", avatarUrl := "", username := "bob" }) :=
  ((groupMembership_counter_amended (createGroup aliceInfo) "bob"
      (fun _ => none) aliceInfo
      { id := "bob", name := "Bob", avatarUrl := "", username := "bob" }
      (by decide)).2.2.2.1).mpr (by decide)

/-- C1: `acceptFriendRequest` runs one transaction that (1) adds each user's
id to the other's `friendIds` via `arrayUnion`, (2) creates a
`friend_request_approved` notification for the requesting user, and
(3) deletes the `friendRequests/{requestingUserId_currentUserId}` document —
and in every state where that request document does not exist or its `status`
is not `"pending"`, the transaction throws, so none of the three changes is
applied and the backend state is unchanged (rollback, modelled by the
`Except.error` result carrying no new state). -/
theorem acceptFriendRequest_atomic (db : FriendDB)
    (currentUserId requestingUserId : String) :
    ((db.requests (requestingUserId ++ "_" ++ currentUserId) = none ∨
      (∀ r, db.requests (requestingUserId ++ "_" ++ currentUserId) = some r →
        r.status ≠ "pending")) →
      acceptFriendRequest db currentUserId requestingUserId =
        .error "Friend request not found or already handled.") ∧
    (∀ r cuDoc ruDoc,
      db.requests (requestingUserId ++ "_" ++ currentUserId) = some r →
      r.status = "pending" →
      db.users currentUserId = some cuDoc →
      db.users requestingUserId = some ruDoc →
      ∃ s, acceptFriendRequest db currentUserId requestingUserId = .ok s ∧
        s.users currentUserId =
          some { cuDoc with
            friendIds := arrayUnion cuDoc.friendIds requestingUserId } ∧
        s.users requestingUserId =
          some { ruDoc with
            friendIds := arrayUnion ruDoc.friendIds currentUserId } ∧
        (∀ k, k ≠ currentUserId → k ≠ requestingUserId →
          s.users k = db.users k) ∧
        s.requests (requestingUserId ++ "_" ++ currentUserId) = none ∧
        (∀ k, k ≠ requestingUserId ++ "_" ++ currentUserId →
          s.requests k = db.requests k) ∧
        s.notifications = db.notifications ++
          [{ ownerId := requestingUserId, ntype := "friend_request_approved",
             user := cuDoc.authorInfo, read := false }]) := by
  constructor
  · intro h
    rcases h with h | h
    · simp only [acceptFriendRequest, h]
    · cases hreq : db.requests (requestingUserId ++ "_" ++ currentUserId) with
      | none => simp only [acceptFriendRequest, hreq]
      | some r =>
        simp only [acceptFriendRequest, hreq]
        rw [if_pos (h r hreq)]
  · intro r cuDoc ruDoc hr hpend hcu hru
    simp only [acceptFriendRequest, hr, hcu, hru]
    rw [if_neg (by simp [hpend])]
    refine ⟨_, rfl, ?_, ?_, ?_, ?_, ?_, rfl⟩
    · simp
    · by_cases hcr : requestingUserId = currentUserId
      · subst hcr
        have hdocs : cuDoc = ruDoc := by
          rw [hcu] at hru
          exact Option.some.inj hru
        subst hdocs
        simp
      · simp [if_neg hcr]
    · intro k hk1 hk2
      simp [if_neg hk1, if_neg hk2]
    · simp
    · intro k hk
      simp [if_neg hk]

/-- Concrete request document for the C1 witness. -/
def pendingBobToAlice : FriendRequestDoc :=
  { fromId := "bob", toId := "alice", status := "pending" }

/-- Concrete backend state for the C1 witness: Alice and Bob exist, and Bob's
pending friend request to Alice is stored under `bob_alice`. -/
def friendDBEx : FriendDB :=
  { users := fun k =>
      if k = "alice" then some { id := "alice", name := "Alice" }
      else if k = "bob" then some { id := "bob", name := "Bob" }
      else none
    requests := fun _ => some pendingBobToAlice
    notifications := [] }

/-- Witness for C1: accepting Bob's pending request in the concrete state
succeeds with the three transactional changes. -/
theorem acceptFriendRequest_atomic_witness :
    ∃ s, acceptFriendRequest friendDBEx "alice" "bob" = .ok s ∧
      s.users "alice" =
        some { (⟨"alice", "Alice", "", "", [], none⟩ : UserDoc) with
          friendIds := arrayUnion [] "bob" } ∧
      s.users "bob" =
        some { (⟨"bob", "Bob", "", "", [], none⟩ : UserDoc) with
          friendIds := arrayUnion [] "alice" } ∧
      (∀ k, k ≠ "alice" → k ≠ "bob" → s.users k = friendDBEx.users k) ∧
      s.requests ("bob" ++ "_" ++ "alice") = none ∧
      (∀ k, k ≠ "bob" ++ "_" ++ "alice" →
        s.requests k = friendDBEx.requests k) ∧
      s.notifications = friendDBEx.notifications ++
        [{ ownerId := "bob", ntype := "friend_request_approved",
           user := (⟨"alice", "Alice", "", "", [], none⟩ : UserDoc).authorInfo,
           read := false }] :=
  (acceptFriendRequest_atomic friendDBEx "alice" "bob").2
    pendingBobToAlice ⟨"alice", "Alice", "", "", [], none⟩
    ⟨"bob", "Bob", "", "", [], none⟩ rfl rfl (by decide) (by decide)

/-- The option update `voteOnPoll` applies to the chosen option. -/
def voteOption (uid : String) (o : PollOption) : PollOption :=
  { o with votes := o.votes + 1, votedBy := o.votedBy ++ [uid] }

/-- C10: `voteOnPoll` enforces at most one vote per user.  If the user
already appears in some option's `votedBy`, the store is unchanged and the
current post is returned.  Otherwise, for a valid index, exactly the chosen
option's `votes` grows by 1 and the user is appended to exactly that option's
`votedBy`, all other options and post fields being unchanged.  For a missing
post, a post without a poll, or an out-of-range index the transaction throws
and the call returns `null` with the store unchanged. -/
theorem voteOnPoll_spec (posts : String → Option PostDoc)
    (uid pid : String) (idx : Int) :
    (posts pid = none → voteOnPoll posts uid pid idx = (none, posts)) ∧
    (∀ postData, posts pid = some postData → postData.poll = none →
      voteOnPoll posts uid pid idx = (none, posts)) ∧
    (∀ postData poll, posts pid = some postData → postData.poll = some poll →
      (∃ opt ∈ poll.options, uid ∈ opt.votedBy) →
      voteOnPoll posts uid pid idx = (some postData, posts)) ∧
    (∀ postData poll, posts pid = some postData → postData.poll = some poll →
      (∀ opt ∈ poll.options, uid ∉ opt.votedBy) →
      (idx < 0 ∨ (poll.options.length : Int) ≤ idx) →
      voteOnPoll posts uid pid idx = (none, posts)) ∧
    (∀ postData poll, posts pid = some postData → postData.poll = some poll →
      (∀ opt ∈ poll.options, uid ∉ opt.votedBy) →
      0 ≤ idx → idx < (poll.options.length : Int) →
      ∃ p', (voteOnPoll posts uid pid idx).1 = some p' ∧
        (voteOnPoll posts uid pid idx).2 pid = some p' ∧
        (∀ k, k ≠ pid → (voteOnPoll posts uid pid idx).2 k = posts k) ∧
        p'.authorId = postData.authorId ∧ p'.comments = postData.comments ∧
        p'.commentCount = postData.commentCount ∧
        (∃ poll', p'.poll = some poll' ∧ poll'.question = poll.question ∧
          poll'.options.length = poll.options.length ∧
          (∀ j : Nat, (j : Int) = idx →
            poll'.options[j]? = (poll.options[j]?).map (voteOption uid)) ∧
          (∀ j : Nat, (j : Int) ≠ idx →
            poll'.options[j]? = poll.options[j]?))) := by
  refine ⟨?_, ?_, ?_, ?_, ?_⟩
  · intro h
    simp only [voteOnPoll, h]
  · intro postData h hpoll
    simp only [voteOnPoll, h, hpoll]
  · intro postData poll h hpoll hvoted
    have hany : poll.options.any (fun opt => uid ∈ opt.votedBy) = true := by
      simpa [List.any_eq_true] using hvoted
    simp only [voteOnPoll, h, hpoll, hany, if_pos]
  · intro postData poll h hpoll hnot hrange
    have hany : poll.options.any (fun opt => uid ∈ opt.votedBy) = false := by
      by_cases hb : poll.options.any (fun opt => uid ∈ opt.votedBy) = true
      · exfalso
        rw [List.any_eq_true] at hb
        obtain ⟨o, ho, hmem⟩ := hb
        exact hnot o ho (by simpa using hmem)
      · simpa using hb
    simp only [voteOnPoll, h, hpoll, hany, Bool.false_eq_true, if_false]
    rw [if_pos hrange]
  · intro postData poll h hpoll hnot h0 hlt
    have hany : poll.options.any (fun opt => uid ∈ opt.votedBy) = false := by
      by_cases hb : poll.options.any (fun opt => uid ∈ opt.votedBy) = true
      · exfalso
        rw [List.any_eq_true] at hb
        obtain ⟨o, ho, hmem⟩ := hb
        exact hnot o ho (by simpa using hmem)
      · simpa using hb
    have hrange : ¬ (idx < 0 ∨ (poll.options.length : Int) ≤ idx) := by
      push_neg
      exact ⟨h0, hlt⟩
    simp only [voteOnPoll, h, hpoll, hany, Bool.false_eq_true, if_false]
    rw [if_neg hrange]
    refine ⟨_, rfl, by simp, ?_, rfl, rfl, rfl, _, rfl, rfl, ?_, ?_, ?_⟩
    · intro k hk
      simp [if_neg hk]
    · simp [List.enum]
    · intro j hj
      simp only [List.getElem?_map, List.enum, List.getElem?_enumFrom,
        Nat.zero_add, Option.map_map]
      cases poll.options[j]? with
      | none => rfl
      | some o => simp [Function.comp, voteOption, hj]
    · intro j hj
      simp only [List.getElem?_map, List.enum, List.getElem?_enumFrom,
        Nat.zero_add, Option.map_map]
      cases poll.options[j]? with
      | none => rfl
      | some o => simp [Function.comp, hj]

/-- Concrete two-option poll for the C10 witness. -/
def pollEx : Poll :=
  { question := "q",
    options := [{ text := "a", votes := 0, votedBy := [] },
                { text := "b", votes := 3, votedBy := ["v"] }] }

/-- Concrete post carrying `pollEx`. -/
def pollPostEx : PostDoc :=
  { authorId := "carol", reactions := fun _ => none, comments := [],
    commentCount := 0, poll := some pollEx }

/-- Witness for C10: a fresh vote on option 0 of the concrete poll increments
exactly that option. -/
theorem voteOnPoll_spec_witness :
    ∃ p', (voteOnPoll (fun _ => some pollPostEx) "u1" "p1" 0).1 = some p' ∧
      (voteOnPoll (fun _ => some pollPostEx) "u1" "p1" 0).2 "p1" = some p' ∧
      (∀ k, k ≠ "p1" → (voteOnPoll (fun _ => some pollPostEx) "u1" "p1" 0).2 k =
        (fun _ => some pollPostEx) k) ∧
      p'.authorId = pollPostEx.authorId ∧ p'.comments = pollPostEx.comments ∧
      p'.commentCount = pollPostEx.commentCount ∧
      (∃ poll', p'.poll = some poll' ∧ poll'.question = pollEx.question ∧
        poll'.options.length = pollEx.options.length ∧
        (∀ j : Nat, (j : Int) = 0 →
          poll'.options[j]? = (pollEx.options[j]?).map (voteOption "u1")) ∧
        (∀ j : Nat, (j : Int) ≠ 0 →
          poll'.options[j]? = pollEx.options[j]?)) :=
  (voteOnPoll_spec (fun _ => some pollPostEx) "u1" "p1" 0).2.2.2.2
    pollPostEx pollEx rfl rfl (by decide) (by decide) (by decide)

/-- Day arithmetic for the sharded listener: when an iteration's clock read
falls on UTC day `d` (with `d ≥ 29`), subtracting `i ≤ 29` days lands on UTC
day `d - i`. -/
theorem read_day_arith (x d i : Nat) (hd : 29 ≤ d) (hi : i < 30)
    (hx : x / msPerDay = d) : (x - i * msPerDay) / msPerDay = d - i := by
  simp only [msPerDay] at *
  omega

/-- Multiplying a day number by `msPerDay` lands inside that UTC day. -/
theorem day_mul_div (d : Nat) : d * msPerDay / msPerDay = d := by
  simp only [msPerDay]
  omega

/-- Per-iteration clock reads of a subscription loop that crosses the UTC
midnight ending day 20371 (2025-10-11): iteration 0 runs in the last
millisecond of day 20371 and every later iteration after the midnight. -/
def crossMidnightReads : Nat → Nat :=
  fun i => if i = 0 then 20372 * msPerDay - 1 else 20372 * msPerDay

/-- C8 counterexample: `listenToNotifications` does *not* always subscribe to
exactly the 30 daily shard collections covering today and the previous 29
days.  The loop reads the clock afresh on each of its 30 iterations (part_000
line 350), so in a run whose iteration 0 executes just before a UTC midnight
and whose later iterations execute just after it, iteration 0 subscribes the
shard of the old day while iteration 1 — computing the new day minus one —
subscribes that very same shard again: the 30 subscriptions contain a
duplicate, cover only 29 distinct daily collections, and the shard of the new
current day is not subscribed at all. -/
theorem listenToNotifications_duplicate_shard :
    (shardCollections crossMidnightReads).length = 30 ∧
    (shardCollections crossMidnightReads)[0]? =
      (shardCollections crossMidnightReads)[1]? ∧
    ¬ (shardCollections crossMidnightReads).Nodup ∧
    (shardCollections crossMidnightReads).dedup.length = 29 ∧
    getDailyCollectionName (20372 * msPerDay) ∉
      shardCollections crossMidnightReads :=
  ⟨by decide, by decide, by decide, by decide, by decide⟩

/-- C8 (amended): the subscription loop of `listenToNotifications` reads the
clock once per iteration; modelling the local `setDate` day-shift as an exact
24-hour shift (fixed UTC offset), whenever all 30 iteration reads fall on the
same UTC day `d` — in particular whenever the loop does not execute across a
UTC midnight — it subscribes to exactly the 30 daily shard collections
covering that day and the previous 29 days: the subscription list has length
30, its `i`-th entry is the shard name of UTC day `d - i`, and the 30 names
are pairwise distinct (checked on the representative day 20372, 2025-10-12).
On every snapshot it delivers the union of the per-day per-user query results
sorted by `createdAt` descending and truncated to at most 50 notifications:
the delivered list is a prefix of length ≤ 50 of a descending-sorted
permutation of the flattened per-day results, and each delivered notification
belongs to the user and to one of the subscribed shards. -/
theorem listenToNotifications_amended :
    (∀ reads : Nat → Nat, (shardCollections reads).length = 30) ∧
    (∀ (reads : Nat → Nat) (d : Nat), 29 ≤ d →
      (∀ i, i < 30 → reads i / msPerDay = d) →
      ∀ i, i < 30 → (shardCollections reads)[i]? =
        some (getDailyCollectionName ((d - i) * msPerDay))) ∧
    (shardCollections (fun _ => 20372 * msPerDay)).Nodup ∧
    (∀ daily : List (List StoredNotification), ∃ l : List StoredNotification,
      l.Perm daily.flatten ∧
      l.Pairwise (fun a b => b.createdAt ≤ a.createdAt) ∧
      processAndCallback daily = l.take 50) ∧
    (∀ shards reads uid, (listenToNotifications shards reads uid).length ≤ 50 ∧
      ∀ n, n ∈ listenToNotifications shards reads uid → n.recipientId = uid ∧
        ∃ c, c ∈ shardCollections reads ∧ n ∈ shards c) := by
  refine ⟨?_, ?_, ?_, ?_, ?_⟩
  · intro reads
    simp [shardCollections]
  · intro reads d hd hreads i hi
    simp only [shardCollections, List.getElem?_map, List.getElem?_range hi,
      Option.map_some]
    exact congrArg some (getDailyCollectionName_congr
      ((read_day_arith (reads i) d i hd hi (hreads i hi)).trans
        (day_mul_div _).symm))
  · decide
  · intro daily
    refine ⟨(daily.flatten).mergeSort (fun a b => b.createdAt ≤ a.createdAt),
      List.mergeSort_perm _ _, ?_, rfl⟩
    have hs := @List.sorted_mergeSort StoredNotification
      (fun a b => decide (b.createdAt ≤ a.createdAt))
      (fun a b c hab hbc => by
        simp only [decide_eq_true_eq] at *
        omega)
      (fun a b => by
        simp only [Bool.or_eq_true, decide_eq_true_eq]
        omega)
      daily.flatten
    exact hs.imp (fun h => by simpa using h)
  · intro shards reads uid
    constructor
    · exact List.length_take_le _ _
    · intro n hn
      have hn' : n ∈ (((shardCollections reads).map
          (fun c => notificationsQuery (shards c) uid)).flatten).mergeSort
          (fun a b => b.createdAt ≤ a.createdAt) :=
        (List.take_sublist _ _).subset hn
      rw [(List.mergeSort_perm _ _).mem_iff] at hn'
      rw [List.mem_flatten] at hn'
      obtain ⟨l, hl, hnl⟩ := hn'
      rw [List.mem_map] at hl
      obtain ⟨c, hc, rfl⟩ := hl
      rw [notificationsQuery, List.mem_filter] at hnl
      refine ⟨by simpa using hnl.2, c, hc, hnl.1⟩

/-- Witness for the amended C8: in a run whose 30 reads all fall on UTC day
20372, subscription 1 is the shard of the previous UTC day. -/
theorem listenToNotifications_amended_witness :
    (shardCollections (fun _ => 20372 * msPerDay))[1]? =
      some (getDailyCollectionName ((20372 - 1) * msPerDay)) :=
  listenToNotifications_amended.2.1 (fun _ => 20372 * msPerDay) 20372
    (by decide) (fun i _ => (by decide : 20372 * msPerDay / msPerDay = 20372))
    1 (by decide)
